import Mathlib

/-!
Verification of the data-hub self-update orchestrator
(`src/services/update-service/updater.py`, the variant cited by every claim).

The Python module is shallowly embedded: the mutable filesystem state touched
by the updater (compose document, service configuration files, version record,
running containers) is an explicit `FileState` record, HTTP fetches and the
YAML parses of externally supplied documents are oracles passed as function
arguments (the spec declares the HTTP transport and the compose/YAML formats
non-goals, treated as opaque external collaborators), and Python exception
control flow is made explicit in the return values.  Container-runtime side
effects are likewise external; only the success/failure outcome of
`restart_services` is modelled, via the `restartOk` oracle field.
-/

namespace Updater

/-- A metric point as emitted by `log_metric`: the InfluxDB measurement name
together with the field/tag values the updater puts into the point (booleans
and numbers are rendered as strings). -/
structure Metric where
  measurement : String
  kv : List (String × String)
deriving DecidableEq, Repr

/-- The mutable local state the updater reads and writes.
`composeFile` is the contents of `COMPOSE_FILE` (`none` when the file is
absent), `configFiles`/`configModes` map service-configuration target paths to
their contents/permission modes, `versionFile` is the version record
(the string stored under the `version` key; `none` when no record exists),
and `containers` is the list of running container names returned by the
container runtime.  `backupOk` and `restartOk` are oracles for the success of
the external I/O performed by `backup_system` (filesystem copies) and
`restart_services` (container runtime calls). -/
structure FileState where
  composeFile : Option String
  configFiles : List (String × String)
  configModes : List (String × Nat)
  versionFile : Option String
  containers : List String
  backupOk : Bool
  restartOk : Bool
deriving DecidableEq, Repr

/-- One manifest step: a YAML mapping with a `type` field and optional
type-specific fields, exactly the keys the source reads
(`step['type']`, `step['path']`, `step['target']`, `step['permissions']`,
`step.get('action')`, `step['service']`, `step['package']`).
A field that is absent in the YAML document is `none`. -/
structure Step where
  stype : String
  path : Option String := none
  target : Option String := none
  permissions : Option String := none
  action : Option String := none
  service : Option String := none
  package : Option String := none
deriving DecidableEq, Repr

/-- A parsed update manifest: the `requires` field (absent allowed) and the
`steps` list; `manifest.get('steps', [])` makes an absent `steps` key the
empty list, so it is folded into the list itself.  The manifest's own
`version` field is never read by `apply_update` and is omitted. -/
structure Manifest where
  requires : Option String := none
  steps : List Step := []
deriving DecidableEq, Repr

/-- Split a character list at every occurrence of the separator `c`
(the semantics of Python's `str.split(c)` / Lean's `String.splitOn`,
restated with structural recursion). -/
def splitOnChar (c : Char) : List Char → List (List Char)
  | [] => [[]]
  | x :: xs =>
    match splitOnChar c xs with
    | [] => [[]]
    | r :: rs => if x = c then [] :: r :: rs else (x :: r) :: rs

/-- Accumulate the value of a string of decimal digits. -/
def decAux : List Char → Nat → Option Nat
  | [], acc => some acc
  | c :: cs, acc =>
    if '0' ≤ c ∧ c ≤ '9' then decAux cs (acc * 10 + (c.toNat - '0'.toNat))
    else none

/-- Parse a non-empty string of decimal digits. -/
def parse_nat : List Char → Option Nat
  | [] => none
  | cs => decAux cs 0

/-- Modelled from the spec: the semantic-version parser supplied by the
external `packaging` library (not part of this repository).  Per the spec's
data model a Version is "a dotted semantic-version string; totally ordered by
standard semver precedence", i.e. three dot-separated numeric components. -/
def parseVersion (s : String) : Option (Nat × Nat × Nat) :=
  match splitOnChar '.' s.toList with
  | [a, b, c] =>
    match parse_nat a, parse_nat b, parse_nat c with
    | some x, some y, some z => some (x, y, z)
    | _, _, _ => none
  | _ => none

/-- Strict semver precedence on parsed versions: lexicographic
major/minor/patch, `vgt a b` meaning `a` is strictly newer than `b`. -/
def vgt (a b : Nat × Nat × Nat) : Bool :=
  decide (b.1 < a.1) ||
    (decide (a.1 = b.1) &&
      (decide (b.2.1 < a.2.1) ||
        (decide (a.2.1 = b.2.1) && decide (b.2.2 < a.2.2))))

/-- Source `compare_versions(v1, v2)`: returns `version.parse(v1) >
version.parse(v2)` and `False` on any parse error (the `except` branch). -/
def compare_versions (v1 v2 : String) : Bool :=
  match parseVersion v1, parseVersion v2 with
  | some a, some b => vgt a b
  | _, _ => false

/-- Python truthiness of a boolean when coerced to `int`, as used when a
boolean result is compared with the negation of another (`True == 1`,
`False == 0`). -/
def pyInt (b : Bool) : Int := if b then 1 else 0

/-- `GITHUB_REPO`/`GITHUB_BRANCH` environment defaults from the source. -/
def raw_base : String :=
  "https://raw.githubusercontent.com/sv-afterglow/data-hub/main/"

/-- URL of the remote compose document used by the `docker_compose` step. -/
def compose_url : String := raw_base ++ "docker/compose/docker-compose.yaml"

/-- URL of a service-configuration file, built from the step's `path`. -/
def config_url (path : String) : String := raw_base ++ path

/-- URL of the per-version update manifest fetched by `apply_update`. -/
def manifest_url (v : String) : String :=
  raw_base ++ "updates/" ++ v ++ "/manifest.yml"

/-- Replace the binding of key `k` in an association list (insert if absent):
the effect of writing a file at path `k`. -/
def upsert {α : Type} : List (String × α) → String → α → List (String × α)
  | [], k, v => [(k, v)]
  | (k', v') :: rest, k, v =>
    if k' = k then (k, v) :: rest else (k', v') :: upsert rest k v

/-- Read the binding of key `k` (the contents of the file at path `k`). -/
def lookupKey {α : Type} : List (String × α) → String → Option α
  | [], _ => none
  | (k', v') :: rest, k => if k' = k then some v' else lookupKey rest k

/-- Python's `str.lstrip(chars)`: drop leading characters that are members of
the character *set* `chars` (not the prefix string). -/
def lstrip_chars (s : String) (chars : List Char) : String :=
  String.mk (s.toList.dropWhile (fun c => chars.contains c))

/-- Target path of a `service_config` step, as computed by the source:
`REPO_ROOT / step['target'].lstrip('/data/data-hub/')` with
`REPO_ROOT = /data/data-hub`.  Note `lstrip` takes a character set, so the
stripped characters are exactly those of the set below. -/
def target_path (t : String) : String :=
  "/data/data-hub/" ++ lstrip_chars t ['/', 'd', 'a', 't', '-', 'h', 'u', 'b']

/-- Accumulate the value of a string of octal digits. -/
def octAux : List Char → Nat → Option Nat
  | [], acc => some acc
  | c :: cs, acc =>
    if '0' ≤ c ∧ c ≤ '7' then octAux cs (acc * 8 + (c.toNat - '0'.toNat))
    else none

/-- Python `int(s, 8)` on the permission strings the manifests carry:
succeeds on a non-empty string of octal digits, raises (here `none`)
otherwise. -/
def parse_octal (s : String) : Option Nat :=
  match s.toList with
  | [] => none
  | cs => octAux cs 0

/-- Source `get_current_version`: read the version record, returning the
stored version, and `'0.0.0'` when the file is absent or unreadable
(`data.get('version', '0.0.0')` and the fall-through `return '0.0.0'`). -/
def get_current_version (fs : FileState) : String :=
  fs.versionFile.getD "0.0.0"

/-- Source `get_expected_services`: the keys of the `services` mapping of the
on-disk compose document.  The YAML parse of the opaque compose text is the
oracle `svc` (a parse error, `none`, yields the empty set, matching the
`except` branch; an absent file yields the empty set). -/
def get_expected_services (svc : String → Option (List String))
    (fs : FileState) : List String :=
  match fs.composeFile with
  | some txt => (svc txt).getD []
  | none => []

/-- The service component of a container name:
`c.name.split('_')[1]`, `none` when the index does not exist (in the source
that raises `IndexError`). -/
def container_service (name : String) : Option String :=
  ((splitOnChar '_' name.toList).get? 1).map String.mk

/-- The set `{c.name.split('_')[1] for c in containers}`; `none` when any
name raises `IndexError` (caught by `verify_update`'s catch-all). -/
def running_services (containers : List String) : Option (List String) :=
  containers.mapM container_service

/-- The hardcoded required set of `verify_update`
("Don't check for services we haven't built yet"). -/
def required_services : List String := ["influxdb", "update-service"]

/-- Source `verify_update`: returns its boolean verdict plus the
`update_verification` metric points it emits.  Empty declared set → `False`
with no metric (only a log line); a container name without an index-1
component raises `IndexError`, caught by the catch-all → `False`;
otherwise the hardcoded required services must appear in the running set and
the version record must equal the target. -/
def verify_update (svc : String → Option (List String)) (fs : FileState)
    (v : String) : Bool × List Metric :=
  let expected := get_expected_services svc fs
  if expected.isEmpty then
    (false, [])
  else
    match running_services fs.containers with
    | none =>
      (false, [⟨"update_verification",
        [("success", "false"), ("error", "exception"), ("version", v)]⟩])
    | some running =>
      let missing := required_services.filter (fun r => ¬ running.contains r)
      if ¬ missing.isEmpty then
        (false, [⟨"update_verification",
          [("success", "false"), ("error", "missing services"),
           ("version", v)]⟩])
      else if get_current_version fs ≠ v then
        (false, [⟨"update_verification",
          [("success", "false"), ("error", "Version mismatch"),
           ("version", v)]⟩])
      else
        (true, [⟨"update_verification", [("success", "true"), ("version", v)]⟩])

/-- A backup created by `backup_system`: the source copies only the compose
document into the backup directory (the `configs` subdirectory is created but
left empty — nothing else is captured). -/
structure Backup where
  composeBackup : Option String
deriving DecidableEq, Repr

/-- Source `backup_system`: copy the compose document (when present) into a
fresh backup directory; any I/O failure (the `backupOk` oracle) yields `None`
and a failure metric. -/
def backup_system (fs : FileState) : Option Backup × List Metric :=
  if fs.backupOk then
    (some ⟨fs.composeFile⟩, [⟨"system_backup", [("success", "true")]⟩])
  else
    (none, [⟨"system_backup", [("success", "false")]⟩])

/-- Source `restart_services`: stop/remove/pull/build/run each service via
the container runtime.  The runtime is an external collaborator (spec
non-goal), so only the outcome is modelled: the compose document must be
readable (`open(COMPOSE_FILE)` raises otherwise, caught → `False`) and the
container-runtime calls succeed per the `restartOk` oracle.  The requested
service set does not influence the modelled outcome. -/
def restart_services (fs : FileState) (_services : Option (List String)) : Bool :=
  fs.composeFile.isSome && fs.restartOk

/-- Source `rollback_update`: with no backup, return `False` (log only).
Otherwise restore the compose document from the backup when the backup copy
exists; the service-configuration restore branch of the source is a literal
`pass` (nothing is restored); then restart all services — a restart failure
raises, is caught, and yields `False`.  Returns the restored state, the
`rollback` metric points, and the boolean result. -/
def rollback_update (fs : FileState) (bp : Option Backup) :
    FileState × List Metric × Bool :=
  match bp with
  | none => (fs, [], false)
  | some b =>
    let fs1 := match b.composeBackup with
      | some txt => { fs with composeFile := some txt }
      | none => fs
    if restart_services fs1 none then
      (fs1, [⟨"rollback", [("success", "true")]⟩], true)
    else
      (fs1, [⟨"rollback", [("success", "false")]⟩], false)

/-- Outcome of applying one manifest step body (the inner `try` of the step
loop): `applied` falls through to the `completed_steps += 1` line, `skipped`
is the `continue` of the `system_package` branch, `failed` is a raised
exception (the state carries any mutation already performed before the
raise). -/
inductive StepOutcome where
  | applied (fs : FileState)
  | skipped (fs : FileState)
  | failed (fs : FileState) (err : String)
deriving DecidableEq, Repr

/-- The body of one iteration of the step loop of `apply_update`, branching
on `step['type']` exactly as the source does.  `fetch` is the HTTP oracle
(`requests.get` + `raise_for_status`; `none` is a download error).  Note:

* `docker_compose`: download the remote compose document and overwrite the
  local file only after a successful fetch;
* `service_config`: read `step['path']` (`KeyError` when absent), download,
  read `step['target']`, write the target file, then — only if a
  `permissions` field is present — parse it with `int(_, 8)` and set the
  mode; an unparsable permissions string raises *after* the file write;
* `system_package`: logs a skip mentioning `step['package']` (`KeyError`
  when absent) and `continue`s without counting the step;
* any other `type` string matches no branch and falls through to the
  success accounting. -/
def apply_step (fetch : String → Option String) (fs : FileState)
    (s : Step) : StepOutcome :=
  if s.stype = "docker_compose" then
    match fetch compose_url with
    | none => .failed fs "compose download error"
    | some body => .applied { fs with composeFile := some body }
  else if s.stype = "service_config" then
    match s.path with
    | none => .failed fs "KeyError: path"
    | some p =>
      match fetch (config_url p) with
      | none => .failed fs "config download error"
      | some body =>
        match s.target with
        | none => .failed fs "KeyError: target"
        | some t =>
          let tp := target_path t
          let fs1 := { fs with configFiles := upsert fs.configFiles tp body }
          match s.permissions with
          | none => .applied fs1
          | some perm =>
            match parse_octal perm with
            | none => .failed fs1 "invalid octal permissions"
            | some m =>
              .applied { fs1 with configModes := upsert fs1.configModes tp m }
  else if s.stype = "system_package" then
    match s.package with
    | none => .failed fs "KeyError: package"
    | some _ => .skipped fs
  else
    .applied fs

/-- Metric point for a successfully applied step. -/
def step_ok_metric (stype : String) (n total : Nat) : Metric :=
  ⟨"update_step",
    [("success", "true"), ("step_type", stype),
     ("step_number", toString n), ("total_steps", toString total)]⟩

/-- Metric point for a failed step. -/
def step_fail_metric (stype err : String) (n total : Nat) : Metric :=
  ⟨"update_step",
    [("success", "false"), ("error", err), ("step_type", stype),
     ("step_number", toString n), ("total_steps", toString total)]⟩

/-- Result of the step loop: final state, emitted metric points, the
`completed_steps` counter, and the raised exception if any. -/
structure StepsResult where
  fs : FileState
  events : List Metric
  completed : Nat
  error : Option String
deriving DecidableEq, Repr

/-- The step loop of `apply_update`: steps strictly in order; a success
increments `completed_steps` and logs a success point, the `system_package`
`continue` skips both, and the first failure logs a failure point and
re-raises, stopping the loop. -/
def apply_steps (fetch : String → Option String) (total : Nat) :
    FileState → List Metric → Nat → List Step → StepsResult
  | fs, evs, done, [] => ⟨fs, evs, done, none⟩
  | fs, evs, done, s :: rest =>
    match apply_step fetch fs s with
    | .applied fs' =>
      apply_steps fetch total fs'
        (evs ++ [step_ok_metric s.stype (done + 1) total]) (done + 1) rest
    | .skipped fs' => apply_steps fetch total fs' evs done rest
    | .failed fs' err =>
      ⟨fs', evs ++ [step_fail_metric s.stype err (done + 1) total],
        done, some err⟩

/-- The restart-set computation after the step loop: every `docker_compose`
step with `action == 'restart'` contributes its `service`; one such step
without a `service` replaces the whole set with all declared services minus
the updater itself and `watchtower`, and stops the scan (`break`). -/
def restart_set_of_steps (svc : String → Option (List String))
    (fs : FileState) (acc : List String) : List Step → List String
  | [] => acc
  | s :: rest =>
    if s.stype = "docker_compose" ∧ s.action = some "restart" then
      match s.service with
      | some name => restart_set_of_steps svc fs (acc ++ [name]) rest
      | none =>
        (get_expected_services svc fs).filter
          (fun n => n ≠ "update-service" ∧ n ≠ "watchtower")
    else restart_set_of_steps svc fs acc rest

/-- Everything observable about one `apply_update` call: the final local
state, the metric points emitted (in order), the Python-level result
(`some b` = the function returned `b`; `none` = an exception escaped
`apply_update` itself), whether a backup was created, whether
`rollback_update` was invoked, and the final `completed_steps` counter. -/
structure UpdateOutcome where
  fs : FileState
  events : List Metric
  result : Option Bool
  backupTaken : Bool
  rollbackInvoked : Bool
  stepsCompleted : Nat
deriving DecidableEq, Repr

/-- Failure metric of the outer `except` handler of `apply_update`. -/
def system_update_fail (err : String) (completed : Nat) : Metric :=
  ⟨"system_update",
    [("success", "false"), ("error", err),
     ("steps_completed", toString completed)]⟩

/-- Success metric of `apply_update`. -/
def system_update_ok (completed total : Nat) : Metric :=
  ⟨"system_update",
    [("success", "true"), ("steps_completed", toString completed),
     ("total_steps", toString total)]⟩

/-- Source `apply_update(version)`, with control flow made explicit.
`mfetch` is the fetched-and-parsed manifest (`none` = download or YAML
failure).  Faithful quirks of this source variant:

* the backup is taken *before* the manifest is fetched; a backup failure
  returns `False` with nothing else attempted;
* `completed_steps`/`total_steps` are first assigned only *after* the
  manifest fetch and the `requires` check, while the outer `except` handler
  reads `completed_steps` — so an exception raised by the manifest fetch or
  the `requires` check makes the handler itself raise `UnboundLocalError`
  before reaching its `rollback_update` call, and that exception escapes
  `apply_update` (modelled as `result = none`);
* the `requires` check reads `version.parse`, but `version` is the string
  parameter shadowing the `packaging.version` module, so a manifest with any
  `requires` field raises `AttributeError` there (before any comparison and
  before any mutation);
* after all steps succeed the version record is written, the restart set is
  computed and (when non-empty) executed — a restart failure raises into the
  outer handler (step counters are bound by then, so it logs, rolls back and
  returns `False`); a verification failure rolls back and returns `False`
  directly. -/
def apply_update (fetch : String → Option String)
    (svc : String → Option (List String)) (mfetch : Option Manifest)
    (v : String) (fs : FileState) : UpdateOutcome :=
  match backup_system fs with
  | (none, bevs) =>
    { fs := fs, events := bevs, result := some false, backupTaken := false,
      rollbackInvoked := false, stepsCompleted := 0 }
  | (some b, bevs) =>
    match mfetch with
    | none =>
      { fs := fs, events := bevs, result := none, backupTaken := true,
        rollbackInvoked := false, stepsCompleted := 0 }
    | some m =>
      if m.requires.isSome then
        { fs := fs, events := bevs, result := none, backupTaken := true,
          rollbackInvoked := false, stepsCompleted := 0 }
      else
        let total := m.steps.length
        let sr := apply_steps fetch total fs [] 0 m.steps
        match sr.error with
        | some err =>
          let r := rollback_update sr.fs (some b)
          { fs := r.1,
            events := bevs ++ sr.events ++
              [system_update_fail err sr.completed] ++ r.2.1,
            result := some false, backupTaken := true,
            rollbackInvoked := true, stepsCompleted := sr.completed }
        | none =>
          let fs1 := { sr.fs with versionFile := some v }
          let rset := restart_set_of_steps svc fs1 [] m.steps
          if ¬ rset.isEmpty ∧ restart_services fs1 (some rset) = false then
            let r := rollback_update fs1 (some b)
            { fs := r.1,
              events := bevs ++ sr.events ++
                [system_update_fail "Failed to restart services"
                  sr.completed] ++ r.2.1,
              result := some false, backupTaken := true,
              rollbackInvoked := true, stepsCompleted := sr.completed }
          else
            match verify_update svc fs1 v with
            | (true, vevs) =>
              { fs := fs1,
                events := bevs ++ sr.events ++ vevs ++
                  [system_update_ok sr.completed total],
                result := some true, backupTaken := true,
                rollbackInvoked := false, stepsCompleted := sr.completed }
            | (false, vevs) =>
              let r := rollback_update fs1 (some b)
              { fs := r.1, events := bevs ++ sr.events ++ vevs ++ r.2.1,
                result := some false, backupTaken := true,
                rollbackInvoked := true, stepsCompleted := sr.completed }

/-- Result of one iteration of the polling loop `run`. -/
structure TickResult where
  fs : FileState
  events : List Metric
  attempted : Bool
deriving DecidableEq, Repr

/-- The `version_check` metric point of the polling loop. -/
def version_check_metric (cur : String) (latest : Option String)
    (avail : Bool) : Metric :=
  ⟨"version_check",
    [("current_version", cur), ("latest_version", latest.getD "unknown"),
     ("update_available", if avail then "true" else "false")]⟩

/-- The availability test of the polling loop:
`bool(latest_version and compare_versions(latest_version, current_version))`
(`None` is falsy, so `compare_versions` is not even called then). -/
def update_available (latest : Option String) (cur : String) : Bool :=
  match latest with
  | none => false
  | some l => compare_versions l cur

/-- One iteration of the source `run` loop: read local and remote versions,
emit the `version_check` point, and start `apply_update` only when a remote
version exists and `compare_versions(latest, current)` holds.  An exception
escaping `apply_update` is caught by the loop's handler, which emits an
`update_check` failure point. -/
def run_tick (fetch : String → Option String)
    (svc : String → Option (List String)) (latest : Option String)
    (mfetch : Option Manifest) (fs : FileState) : TickResult :=
  let cur := get_current_version fs
  let avail := update_available latest cur
  let vcheck := version_check_metric cur latest avail
  if avail then
    let o := apply_update fetch svc mfetch (latest.getD "") fs
    match o.result with
    | none =>
      ⟨o.fs, vcheck :: o.events ++
        [⟨"update_check", [("success", "false")]⟩], true⟩
    | some _ => ⟨o.fs, vcheck :: o.events, true⟩
  else
    ⟨fs, [vcheck], false⟩

/-- The process-level state: the filesystem state, the metric points that
actually reached the sink, and the health of the sink connection. -/
structure SysState where
  fs : FileState
  metrics : List Metric
  sinkOk : Bool
deriving DecidableEq, Repr

/-- Source `log_metric`: attempt to write one point to the metrics sink;
a failed write raises inside `log_metric`, is caught there, and only a log
line is produced — the caller's state and control flow are untouched. -/
def log_metric (st : SysState) (m : Metric) : SysState :=
  if st.sinkOk then { st with metrics := st.metrics ++ [m] } else st

/-- Write a sequence of points through `log_metric`. -/
def log_events (st : SysState) (evs : List Metric) : SysState :=
  evs.foldl log_metric st

/-- `apply_update` at the process level: the filesystem effects and result
are those of `apply_update`, and every metric point it emits goes through
`log_metric` (whose failures are swallowed). -/
def apply_update_sys (fetch : String → Option String)
    (svc : String → Option (List String)) (mfetch : Option Manifest)
    (v : String) (st : SysState) : SysState × UpdateOutcome :=
  let o := apply_update fetch svc mfetch v st.fs
  ({ fs := o.fs, metrics := (log_events st o.events).metrics,
     sinkOk := st.sinkOk }, o)

/-- Concrete appliance state used to exercise the model: version `1.0.0`
installed, one service-configuration file with contents `OLD`, the compose
document present, both required containers running, and the external I/O
oracles healthy. -/
def baseState : FileState :=
  { composeFile := some "compose-v1"
    configFiles := [("/data/data-hub/services/foo.conf", "OLD")]
    configModes := []
    versionFile := some "1.0.0"
    containers := ["data-hub_influxdb_1", "data-hub_update-service_1"]
    backupOk := true
    restartOk := true }

/-- The state of a fresh install: no version record exists yet. -/
def noVersionState : FileState :=
  { baseState with versionFile := none }

/-- Compose-parse oracle declaring exactly the two required services. -/
def svcTwo : String → Option (List String) := fun _ =>
  some ["influxdb", "update-service"]

/-- Compose-parse oracle declaring a third service, `network-monitor`,
beyond the two required ones. -/
def svcThree : String → Option (List String) := fun _ =>
  some ["influxdb", "update-service", "network-monitor"]

/-- HTTP oracle: the configuration file `services/foo.conf` downloads with
contents `NEW`; every other URL (in particular the compose document) fails. -/
def fetchFooOnly : String → Option String := fun u =>
  if u = config_url "services/foo.conf" then some "NEW" else none

/-- HTTP oracle: the configuration file `services/x.conf` downloads with
contents `NEWX`; every other URL fails. -/
def fetchXOnly : String → Option String := fun u =>
  if u = config_url "services/x.conf" then some "NEWX" else none

/-- A two-step manifest whose first step rewrites `services/foo.conf` and
whose second step replaces the compose document. -/
def twoStepManifest : Manifest :=
  { steps :=
      [ { stype := "service_config", path := some "services/foo.conf",
          target := some "/data/data-hub/services/foo.conf" },
        { stype := "docker_compose" } ] }

/-- A manifest whose first step carries the unrecognized type
`invalid_type` (the step type of the repository's own
`test_invalid_manifest` unit test) followed by an ordinary
`service_config` step. -/
def unknownStepManifest : Manifest :=
  { steps :=
      [ { stype := "invalid_type", path := some "test.py" },
        { stype := "service_config", path := some "services/x.conf",
          target := some "/data/data-hub/services/x.conf" } ] }

/-- A manifest demanding `requires: 2.0.0`, newer than the installed
`1.0.0` of `baseState`. -/
def requiresManifest : Manifest :=
  { requires := some "2.0.0", steps := [{ stype := "docker_compose" }] }

end Updater

namespace Updater

theorem vgt_asymm {a b : Nat × Nat × Nat} (h : vgt a b = true) : vgt b a = false := by
  obtain ⟨a1, a2, a3⟩ := a
  obtain ⟨b1, b2, b3⟩ := b
  simp only [vgt, Bool.or_eq_true, Bool.and_eq_true, decide_eq_true_eq,
    Bool.or_eq_false_iff, Bool.and_eq_false_iff, decide_eq_false_iff_not] at h ⊢
  omega

theorem vgt_trans {a b c : Nat × Nat × Nat} (h1 : vgt a b = true)
    (h2 : vgt b c = true) : vgt a c = true := by
  obtain ⟨a1, a2, a3⟩ := a
  obtain ⟨b1, b2, b3⟩ := b
  obtain ⟨c1, c2, c3⟩ := c
  simp only [vgt, Bool.or_eq_true, Bool.and_eq_true, decide_eq_true_eq] at h1 h2 ⊢
  omega

/-- C1: refutation by evaluation.  Update to `1.1.0` with a two-step
manifest: step 1 (`service_config`) rewrites `services/foo.conf` from `OLD`
to `NEW`, step 2 (`docker_compose`) fails on download, so the update fails at
`k = 2` and the automatic rollback runs (and reports success).  Yet after the
rollback the configuration file still holds `NEW`, not its pre-update
snapshot contents `OLD`: `backup_system` copies only the compose document and
the config-restore branch of `rollback_update` is a `pass` stub, so the
effects of step 1 are not undone. -/
theorem rollback_leaves_config_mutation :
    (apply_update fetchFooOnly svcTwo (some twoStepManifest) "1.1.0"
      baseState).result = some false ∧
    (apply_update fetchFooOnly svcTwo (some twoStepManifest) "1.1.0"
      baseState).rollbackInvoked = true ∧
    lookupKey baseState.configFiles "/data/data-hub/services/foo.conf" =
      some "OLD" ∧
    lookupKey (apply_update fetchFooOnly svcTwo (some twoStepManifest) "1.1.0"
      baseState).fs.configFiles "/data/data-hub/services/foo.conf" =
      some "NEW" ∧
    (apply_update fetchFooOnly svcTwo (some twoStepManifest) "1.1.0"
      baseState).fs.composeFile = baseState.composeFile ∧
    (apply_update fetchFooOnly svcTwo (some twoStepManifest) "1.1.0"
      baseState).fs.versionFile = some "1.0.0" := by
  decide

/-- C2: refutation by evaluation.  A manifest whose first step has the
unrecognized type `invalid_type` (the very step of the repository's
`test_invalid_manifest` unit test, which expects the update to fail and roll
back): the step matches no branch of the step loop, is counted as completed
and reported as a successful `update_step` point, the following
`service_config` step is still applied, and the whole update commits and
returns `True` — no unknown-step-type failure, no abort. -/
theorem unknown_step_counted_success :
    (apply_update fetchXOnly svcTwo (some unknownStepManifest) "1.1.0"
      baseState).result = some true ∧
    (apply_update fetchXOnly svcTwo (some unknownStepManifest) "1.1.0"
      baseState).stepsCompleted = 2 ∧
    (apply_update fetchXOnly svcTwo (some unknownStepManifest) "1.1.0"
      baseState).events.contains (step_ok_metric "invalid_type" 1 2) = true ∧
    lookupKey (apply_update fetchXOnly svcTwo (some unknownStepManifest)
      "1.1.0" baseState).fs.configFiles "/data/data-hub/services/x.conf" =
      some "NEWX" ∧
    (apply_update fetchXOnly svcTwo (some unknownStepManifest) "1.1.0"
      baseState).fs.versionFile = some "1.1.0" := by
  decide

/-- C3, counterexample: with a missing/unparseable manifest the update does
abort, but a backup *is* taken — `backup_system` runs before the manifest is
fetched, refuting the claimed "no backup is taken". -/
theorem malformed_manifest_backup_taken :
    (apply_update fetchFooOnly svcTwo none "1.1.0" baseState).backupTaken
      = true ∧
    (apply_update fetchFooOnly svcTwo none "1.1.0" baseState).result
      ≠ some true := by
  decide

/-- C3, as amended: when the fetched manifest document is missing or
unparseable, the update attempt performs no step, leaves the local state
(compose document, configuration files, version record) untouched, does not
invoke the rollback routine, and does not succeed — but a backup has been
taken exactly when the backup I/O succeeds, because `backup_system` runs
before the manifest is fetched. -/
theorem malformed_manifest_aborts_after_backup
    (fetch : String → Option String) (svc : String → Option (List String))
    (v : String) (fs : FileState) :
    (apply_update fetch svc none v fs).fs = fs ∧
    (apply_update fetch svc none v fs).stepsCompleted = 0 ∧
    (apply_update fetch svc none v fs).rollbackInvoked = false ∧
    (apply_update fetch svc none v fs).result ≠ some true ∧
    (apply_update fetch svc none v fs).backupTaken = fs.backupOk := by
  cases hb : fs.backupOk <;> simp [apply_update, backup_system, hb]

/-- C4, counterexample: the compose document declares `network-monitor`
alongside the two required services, no `network-monitor` container is
running, and the version record matches the target — yet `verify_update`
returns `True`, because it only checks the hardcoded required set
`{influxdb, update-service}`. -/
theorem verify_true_despite_missing_declared_service :
    (verify_update svcThree baseState "1.0.0").1 = true ∧
    (get_expected_services svcThree baseState).contains "network-monitor"
      = true ∧
    ((running_services baseState.containers).getD []).contains
      "network-monitor" = false := by
  decide

/-- C4, as amended: `verify_update(target)` returns `True` iff the declared
service set is non-empty, every container name yields a service component,
every service of the hardcoded required set `{influxdb, update-service}` has
a running container, and the persisted version equals `target`.  Absence of
any *other* declared service does not make it `False`.  (The function is
total — the source wraps everything in a catch-all returning `False`.) -/
theorem verify_update_characterization (svc : String → Option (List String))
    (fs : FileState) (v : String) :
    (verify_update svc fs v).1 = true ↔
      (get_expected_services svc fs ≠ [] ∧
       ∃ running, running_services fs.containers = some running ∧
         (∀ r ∈ required_services, running.contains r = true) ∧
         get_current_version fs = v) := by
  unfold verify_update
  by_cases he : (get_expected_services svc fs).isEmpty
  · simp only [he, if_true]
    simp [List.isEmpty_iff.mp he]
  · cases hr : running_services fs.containers with
    | none => simp [he, hr]
    | some running =>
      by_cases h1 : running.contains "influxdb" <;>
        by_cases h2 : running.contains "update-service" <;>
          by_cases hv : get_current_version fs = v <;>
            simp_all [required_services, List.isEmpty_iff,
              List.filter_eq_nil_iff]

/-- C4 witness: a concrete state on which the characterization's
right-to-left direction yields a `True` verification. -/
theorem verify_update_characterization_witness :
    (verify_update svcTwo baseState "1.0.0").1 = true :=
  (verify_update_characterization svcTwo baseState "1.0.0").mpr
    ⟨by decide, ["influxdb", "update-service"], by decide, by decide,
      by decide⟩

/-- C5: a manifest whose `requires` field is present (in particular one
strictly newer than the installed version, as witnessed by the parsed-order
hypothesis) is rejected before any step: the local state is untouched, no
step is applied, the rollback routine is never reached, the call does not
succeed, and the persisted version is unchanged.  (In this source the
parameter `version` shadows the `packaging.version` module, so the
`requires` check raises before comparing; the exception then trips the
handler's unbound `completed_steps` and escapes `apply_update` before its
rollback line.) -/
theorem requires_gt_current_rejected (fetch : String → Option String)
    (svc : String → Option (List String)) (m : Manifest) (v req : String)
    (fs : FileState) (hreq : m.requires = some req)
    (_hgt : ∃ a b, parseVersion req = some a ∧
      parseVersion (get_current_version fs) = some b ∧ vgt a b = true)
    (hb : fs.backupOk = true) :
    (apply_update fetch svc (some m) v fs).fs = fs ∧
    (apply_update fetch svc (some m) v fs).stepsCompleted = 0 ∧
    (apply_update fetch svc (some m) v fs).rollbackInvoked = false ∧
    (apply_update fetch svc (some m) v fs).result ≠ some true ∧
    get_current_version (apply_update fetch svc (some m) v fs).fs =
      get_current_version fs := by
  simp [apply_update, backup_system, hb, hreq]

/-- C5 witness: the rejection at the concrete `requires: 2.0.0` manifest over
the installed version `1.0.0`. -/
theorem requires_gt_current_rejected_witness :
    (apply_update fetchFooOnly svcTwo (some requiresManifest) "1.1.0"
      baseState).fs = baseState ∧
    (apply_update fetchFooOnly svcTwo (some requiresManifest) "1.1.0"
      baseState).stepsCompleted = 0 ∧
    (apply_update fetchFooOnly svcTwo (some requiresManifest) "1.1.0"
      baseState).rollbackInvoked = false ∧
    (apply_update fetchFooOnly svcTwo (some requiresManifest) "1.1.0"
      baseState).result ≠ some true ∧
    get_current_version (apply_update fetchFooOnly svcTwo
      (some requiresManifest) "1.1.0" baseState).fs =
      get_current_version baseState :=
  requires_gt_current_rejected fetchFooOnly svcTwo requiresManifest "1.1.0"
    "2.0.0" baseState rfl ⟨(2, 0, 0), (1, 0, 0), rfl, rfl, rfl⟩ rfl

/-- C6: on a polling tick where the remote version is unavailable or not
strictly newer than the installed one (under parsed semver precedence — in
particular when it is the already-installed version), the tick performs no
mutation, starts no update attempt, and its only metric point is a
`version_check` with `update_available = false`. -/
theorem stale_remote_no_update (fetch : String → Option String)
    (svc : String → Option (List String)) (latest : Option String)
    (mfetch : Option Manifest) (fs : FileState)
    (h : latest = none ∨ ∃ l a b, latest = some l ∧ parseVersion l = some a ∧
      parseVersion (get_current_version fs) = some b ∧ vgt a b = false) :
    (run_tick fetch svc latest mfetch fs).fs = fs ∧
    (run_tick fetch svc latest mfetch fs).attempted = false ∧
    (run_tick fetch svc latest mfetch fs).events =
      [version_check_metric (get_current_version fs) latest false] := by
  have havail : update_available latest (get_current_version fs) = false := by
    rcases h with h | ⟨l, a, b, hl, ha, hb, hv⟩
    · simp [update_available, h]
    · subst hl
      simp [update_available, compare_versions, ha, hb, hv]
  simp [run_tick, havail]

/-- C6 witness: the remote latest version equals the installed `1.0.0`, and
the tick is a reported no-op. -/
theorem stale_remote_no_update_witness :
    (run_tick fetchFooOnly svcTwo (some "1.0.0") none baseState).fs =
      baseState ∧
    (run_tick fetchFooOnly svcTwo (some "1.0.0") none baseState).attempted =
      false ∧
    (run_tick fetchFooOnly svcTwo (some "1.0.0") none baseState).events =
      [version_check_metric (get_current_version baseState) (some "1.0.0")
        false] :=
  stale_remote_no_update fetchFooOnly svcTwo (some "1.0.0") none baseState
    (Or.inr ⟨"1.0.0", (1, 0, 0), (1, 0, 0), rfl, rfl, rfl, rfl⟩)

/-- C7, counterexample: `compare_versions` returns a *boolean* (`v1 > v2`),
so the claimed identity `compare(a,b) == -compare(b,a)` fails under Python's
numeric coercion already at `a = 1.1.0`, `b = 1.0.0` (`True == -False` is
`1 == 0`). -/
theorem compare_versions_not_int_negation :
    ¬ (pyInt (compare_versions "1.1.0" "1.0.0") =
        -(pyInt (compare_versions "1.0.0" "1.1.0"))) := by
  decide

/-- C7, as amended: the boolean comparison is asymmetric —
`compare_versions a b` implies `¬ compare_versions b a` — and transitive,
for all version strings (parse failures return `False` and satisfy both
properties vacuously). -/
theorem compare_versions_asymm_and_trans (a b c : String) :
    (compare_versions a b = true → compare_versions b a = false) ∧
    (compare_versions a b = true → compare_versions b c = true →
      compare_versions a c = true) := by
  constructor
  · intro h
    unfold compare_versions at h ⊢
    cases hpa : parseVersion a <;> cases hpb : parseVersion b <;>
      simp only [hpa, hpb] at h ⊢ <;>
      first
        | exact absurd h (by decide)
        | exact vgt_asymm h
  · intro h1 h2
    unfold compare_versions at h1 h2 ⊢
    cases hpa : parseVersion a <;> cases hpb : parseVersion b <;>
      cases hpc : parseVersion c <;>
      simp only [hpa, hpb, hpc] at h1 h2 ⊢ <;>
      first
        | exact absurd h1 (by decide)
        | exact absurd h2 (by decide)
        | exact vgt_trans h1 h2

/-- C7 witness: the asymmetry and transitivity instantiated at concrete
version strings. -/
theorem compare_versions_asymm_and_trans_witness :
    compare_versions "1.0.0" "2.0.0" = false ∧
    compare_versions "3.0.0" "1.0.0" = true :=
  ⟨(compare_versions_asymm_and_trans "2.0.0" "1.0.0" "1.0.0").1 (by decide),
   (compare_versions_asymm_and_trans "3.0.0" "2.0.0" "1.0.0").2 (by decide)
     (by decide)⟩

/-- C8: a `docker_compose` step whose download of the new compose document
fails leaves the whole local state — in particular the on-disk compose
document — exactly as it was, and the step fails: the local file is written
only after a fully successful fetch. -/
theorem compose_download_failure_no_write (fetch : String → Option String)
    (fs : FileState) (s : Step) (hs : s.stype = "docker_compose")
    (hf : fetch compose_url = none) :
    apply_step fetch fs s = StepOutcome.failed fs "compose download error" := by
  simp [apply_step, hs, hf]

/-- C8 witness: the failed compose step at a concrete state and an HTTP
oracle that fails every download. -/
theorem compose_download_failure_no_write_witness :
    apply_step (fun _ => none) baseState { stype := "docker_compose" } =
      StepOutcome.failed baseState "compose download error" :=
  compose_download_failure_no_write (fun _ => none) baseState
    { stype := "docker_compose" } rfl rfl

/-- C9: when no version record exists, reading the current version is not
fatal — the controller observes `0.0.0`, and a polling tick still runs,
reporting `0.0.0` as the current version in its `version_check` point (shown
here for a tick with no remote version). -/
theorem missing_version_record_defaults (fetch : String → Option String)
    (svc : String → Option (List String)) (mfetch : Option Manifest)
    (fs : FileState) (h : fs.versionFile = none) :
    get_current_version fs = "0.0.0" ∧
    (run_tick fetch svc none mfetch fs).fs = fs ∧
    (run_tick fetch svc none mfetch fs).events =
      [version_check_metric "0.0.0" none false] := by
  refine ⟨by simp [get_current_version, h], ?_, ?_⟩ <;>
    simp [run_tick, update_available, get_current_version, h]

/-- C9 witness: the fresh-install state. -/
theorem missing_version_record_defaults_witness :
    get_current_version noVersionState = "0.0.0" ∧
    (run_tick fetchFooOnly svcTwo none none noVersionState).fs =
      noVersionState ∧
    (run_tick fetchFooOnly svcTwo none none noVersionState).events =
      [version_check_metric "0.0.0" none false] :=
  missing_version_record_defaults fetchFooOnly svcTwo none noVersionState rfl

/-- C10: a failed metrics-sink write is swallowed inside `log_metric` (the
caller's state is untouched), and consequently the outcome of a full
`apply_update` — final local state, returned result, rollback behaviour and
step counter — is identical whether the sink accepts the points or fails on
every write; only the set of points that reached the sink differs. -/
theorem metric_sink_failure_preserves_outcome
    (fetch : String → Option String) (svc : String → Option (List String))
    (mfetch : Option Manifest) (v : String) (fs : FileState)
    (M : List Metric) (m : Metric) (b1 b2 : Bool) :
    (log_metric ⟨fs, M, b1⟩ m).fs = fs ∧
    (apply_update_sys fetch svc mfetch v ⟨fs, M, b1⟩).1.fs =
      (apply_update_sys fetch svc mfetch v ⟨fs, M, b2⟩).1.fs ∧
    (apply_update_sys fetch svc mfetch v ⟨fs, M, b1⟩).2 =
      (apply_update_sys fetch svc mfetch v ⟨fs, M, b2⟩).2 := by
  refine ⟨?_, rfl, rfl⟩
  cases b1 <;> rfl

end Updater
